import Mathlib

/-!
Verification of the CDKG GraphRAG pipeline and its evaluation harness.

This file shallowly embeds the Python sources `src/kuzu/rag.py` and
`src/kuzu/evaluate.py`.  External collaborators (the Kuzu graph backend,
the BAML text-generation services, the Gemini judge client and the Python
`json` library) are modelled as explicit function parameters or as small
executable models restricted to the value fragment the program exchanges
with them; every such modelling decision is recorded in the doc comment
of the corresponding definition.
-/

/-- Python runtime values appearing in query-result rows: integers,
strings and `None`.  This is the value fragment exchanged between the
Kuzu backend and `GraphRAG.execute_query`; other Python types (floats,
lists, ...) are outside the modelled fragment. -/
inductive Val where
  | vint (n : Int)
  | vstr (s : String)
  | vnone
deriving DecidableEq

/-- Python `str(v)` on the modelled value fragment: `str(None) = "None"`,
integers print in decimal, strings print themselves. -/
def pyStr : Val → String
  | Val.vint n => toString n
  | Val.vstr s => s
  | Val.vnone => "None"

/-- The row-deduplication loop of `GraphRAG.execute_query`
(`rag.py` lines 89-96): a `seen` set of row tuples is maintained and a
row is appended only the first time its tuple is seen.  The Python `set`
is modelled by the list of values seen so far (membership by structural
equality, matching tuple equality on the fragment). -/
def dedupGo (seen : List (List Val)) : List (List Val) → List (List Val)
  | [] => []
  | x :: xs =>
    if x ∈ seen then dedupGo seen xs
    else x :: dedupGo (x :: seen) xs

/-- Entry point of the deduplication loop: no row seen initially. -/
def dedupRows (rows : List (List Val)) : List (List Val) := dedupGo [] rows

/-- Specification-shaped deduplication: keep the head, drop its later
duplicates, recurse.  Used only to characterise `dedupRows`. -/
def keepFirsts : List (List Val) → List (List Val)
  | [] => []
  | x :: xs => x :: keepFirsts (xs.filter (fun y => decide (y ≠ x)))
termination_by l => l.length
decreasing_by
  simp only [List.length_cons]
  exact Nat.lt_succ_of_le (List.length_filter_le _ _)

/-- The serialization section of `GraphRAG.execute_query`
(`rag.py` lines 98-111): no rows gives `""`; exactly one column joins
`str(r[0])` with `", "`; otherwise each row becomes its `col: value`
pairs (pairs whose value is `None` skipped) joined with `" | "`, and rows
are joined with `"\n"`.  Rows from the backend always align with the
column list; `headD Val.vnone` stands for the Python `r[0]` on such
aligned non-empty rows. -/
def serializeRows (columns : List String) (rows : List (List Val)) : String :=
  if rows = [] then ""
  else if columns.length = 1 then
    String.intercalate ", " (rows.map (fun r => pyStr (r.headD Val.vnone)))
  else
    String.intercalate "\n" (rows.map (fun row =>
      String.intercalate " | "
        (((columns.zip row).filter (fun p => decide (p.2 ≠ Val.vnone))).map
          (fun p => p.1 ++ ": " ++ pyStr p.2))))

/-- The BAML `types.Answer` value returned by `execute_query`. -/
structure Answer where
  question : String
  answer : String
deriving DecidableEq

/-- `GraphRAG.execute_query` (`rag.py` lines 85-113) after the backend
call: the backend's reply to the generated query is modelled by its
column names and raw row list.  Rows are deduplicated in arrival order
and then serialized. -/
def execute_query (question : String) (columns : List String)
    (rawRows : List (List Val)) : Answer :=
  { question := question, answer := serializeRows columns (dedupRows rawRows) }

/-- The dictionary returned by `GraphRAG.run` (`rag.py` lines 118-122):
keys `question`, `cypher`, `response`. -/
structure RagRunResult where
  question : String
  cypher : String
  response : String
deriving DecidableEq

/-- `GraphRAG.run` (`rag.py` lines 115-130).  The three external
collaborators are parameters: `text2cypher` models the BAML
`RAGText2Cypher` call (returning `none` when the service returns no
query object, i.e. the Python value is falsy; an `Except.error` models a
raised exception), `backend` models `conn.execute` on the generated
query returning column names and raw rows, and `synthesize` models the
BAML `RAGAnswerQuestion` call.  Errors of any collaborator propagate
uncaught, as in the source. -/
def GraphRAG.run (text2cypher : String → Except String (Option String))
    (backend : String → Except String (List String × List (List Val)))
    (synthesize : String → String → Except String String)
    (question : String) : Except String RagRunResult :=
  match text2cypher question with
  | Except.error e => Except.error e
  | Except.ok none =>
    Except.ok { question := question, cypher := "N/A", response := "N/A" }
  | Except.ok (some q) =>
    match backend q with
    | Except.error e => Except.error e
    | Except.ok (cols, rows) =>
      match synthesize question (execute_query question cols rows).answer with
      | Except.error e => Except.error e
      | Except.ok r =>
        Except.ok { question := question, cypher := q, response := r }

/-- Scalar JSON values in the fragment the judge exchange uses: `null`,
integers, and strings without escape sequences.  Floats and booleans do
not occur in the modelled exchanges and are outside the fragment. -/
inductive JScalar where
  | jnull
  | jint (n : Int)
  | jstr (s : String)
deriving DecidableEq

/-- JSON documents of the fragment: a scalar, or a one-level object with
string keys and scalar values.  Arrays and nested objects are outside
the fragment. -/
inductive JVal where
  | scalar (v : JScalar)
  | jobj (fields : List (String × JScalar))
deriving DecidableEq

/-- Skip JSON whitespace characters. -/
def skipWs : List Char → List Char
  | [] => []
  | c :: cs =>
    if c = ' ' ∨ c = '\t' ∨ c = '\n' ∨ c = '\r' then skipWs cs else c :: cs

/-- Read the remainder of a JSON string literal (opening quote already
consumed, escape sequences outside the fragment); returns the body and
the input after the closing quote. -/
def parseStrChars : List Char → Option (List Char × List Char)
  | [] => none
  | c :: cs =>
    if c = '\x22' then some ([], cs)
    else
      match parseStrChars cs with
      | some (s, rest) => some (c :: s, rest)
      | none => none

/-- Split a leading run of decimal digits from the input. -/
def parseDigits : List Char → List Char × List Char
  | [] => ([], [])
  | c :: cs =>
    if c.isDigit then
      let p := parseDigits cs
      (c :: p.1, p.2)
    else ([], c :: cs)

/-- Decimal value of a digit list. -/
def digitsToNat (ds : List Char) : Nat :=
  ds.foldl (fun a c => a * 10 + (c.toNat - 48)) 0

/-- Read a leading JSON integer (optional minus sign, digit run). -/
def parseIntTok (cs : List Char) : Option (Int × List Char) :=
  match cs with
  | '-' :: rest =>
    match parseDigits rest with
    | ([], _) => none
    | (ds, r) => some (-(digitsToNat ds : Int), r)
  | _ =>
    match parseDigits cs with
    | ([], _) => none
    | (ds, r) => some ((digitsToNat ds : Int), r)

/-- Read a leading scalar JSON value of the fragment: a string, `null`
or an integer. -/
def parseScalar (cs : List Char) : Option (JScalar × List Char) :=
  match cs with
  | [] => none
  | c :: rest =>
    if c = '\x22' then
      (parseStrChars rest).map (fun p => (JScalar.jstr (String.mk p.1), p.2))
    else if c = 'n' then
      match rest with
      | 'u' :: 'l' :: 'l' :: r => some (JScalar.jnull, r)
      | _ => none
    else (parseIntTok (c :: rest)).map (fun p => (JScalar.jint p.1, p.2))

/-- Read the members of a JSON object (after the opening brace, at least
one member): `"key": scalar` pairs separated by commas, up to and
including the closing brace.  `fuel` bounds the recursion by the input
length. -/
def parseMembers : Nat → List Char → Option (List (String × JScalar) × List Char)
  | 0, _ => none
  | fuel + 1, cs =>
    match skipWs cs with
    | '\x22' :: rest =>
      match parseStrChars rest with
      | none => none
      | some (key, r1) =>
        match skipWs r1 with
        | ':' :: r3 =>
          match parseScalar (skipWs r3) with
          | none => none
          | some (v, r5) =>
            match skipWs r5 with
            | ',' :: r7 =>
              match parseMembers fuel r7 with
              | some (ms, r8) => some ((String.mk key, v) :: ms, r8)
              | none => none
            | '\x7d' :: r7 => some ([(String.mk key, v)], r7)
            | _ => none
        | _ => none
    | _ => none

/-- Model of Python `json.loads` on the exchanged fragment: a top-level
object with scalar members, or a top-level scalar.  `none` models a
raised `json.JSONDecodeError`.  Inputs outside the fragment (arrays,
floats, booleans, escapes, nested objects) are not modelled. -/
def jsonLoads (s : String) : Option JVal :=
  match skipWs s.data with
  | '\x7b' :: rest =>
    match skipWs rest with
    | '\x7d' :: r2 =>
      if (skipWs r2).isEmpty then some (JVal.jobj []) else none
    | _ =>
      match parseMembers (s.length + 1) rest with
      | some (ms, rest2) =>
        if (skipWs rest2).isEmpty then some (JVal.jobj ms) else none
      | none => none
  | cs =>
    match parseScalar cs with
    | some (v, rest) =>
      if (skipWs rest).isEmpty then some (JVal.scalar v) else none
    | none => none

/-- The whitespace characters stripped by Python `str.strip()` (ASCII
fragment). -/
def isPyWs (c : Char) : Bool :=
  c == ' ' || c == '\t' || c == '\n' || c == '\r' || c == '\x0b' || c == '\x0c'

/-- Python `str.strip()` on the ASCII-whitespace fragment: drop leading
and trailing whitespace. -/
def pyStrip (s : String) : String :=
  String.mk (((s.data.dropWhile isPyWs).reverse.dropWhile isPyWs).reverse)

/-- Python `int(s)` on a string argument (fragment without underscore
separators): strip whitespace, then an optional sign followed by a
non-empty digit run; anything else raises `ValueError` (`none`). -/
def pyToInt (s : String) : Option Int :=
  match (pyStrip s).data with
  | [] => none
  | '-' :: ds =>
    if ds ≠ [] ∧ ds.all Char.isDigit then some (-(digitsToNat ds : Int))
    else none
  | '+' :: ds =>
    if ds ≠ [] ∧ ds.all Char.isDigit then some ((digitsToNat ds : Int))
    else none
  | ds =>
    if ds ≠ [] ∧ ds.all Char.isDigit then some ((digitsToNat ds : Int))
    else none

/-- Python dict lookup on an object built by `json.loads`: with
duplicate keys the later member wins, absence models a `KeyError` (for
subscripting) or the default (for `.get`). -/
def pyDictGet (fields : List (String × JScalar)) (k : String) : Option JScalar :=
  (fields.reverse.find? (fun p => p.1 == k)).map (fun p => p.2)

/-- Outcome of Python `int(v)` on a scalar of the fragment: a value, a
`ValueError` (string that does not parse as an integer) or a `TypeError`
(`None`). -/
inductive PyIntRes where
  | ok (n : Int)
  | valErr
  | typeErr
deriving DecidableEq

/-- Python `int(v)` on the fragment: integers pass through, strings are
parsed after stripping whitespace (`ValueError` if they do not parse),
`None` raises `TypeError`. -/
def pyIntOf : JScalar → PyIntRes
  | JScalar.jint n => PyIntRes.ok n
  | JScalar.jstr s =>
    match pyToInt s with
    | some n => PyIntRes.ok n
    | none => PyIntRes.valErr
  | JScalar.jnull => PyIntRes.typeErr

/-- The character test of the fallback scan in `judge_response`
(`evaluate.py` line 100): `ch.isdigit() and 1 <= int(ch) <= 5`. -/
def isJudgeDigit (c : Char) : Bool :=
  c.isDigit && decide (1 ≤ c.toNat - 48) && decide (c.toNat - 48 ≤ 5)

/-- The fallback branch of `judge_response` (`evaluate.py` lines
99-102): scan the raw response text for the first digit in [1,5] and
return it with the raw text as reasoning; with no such digit return
score 1 and a reasoning embedding the raw text. -/
def judgeFallback (text : String) : Int × String :=
  match text.data.find? isJudgeDigit with
  | some c => (((c.toNat - 48 : Nat) : Int), text)
  | none => (1, "Could not parse judge response: " ++ text)

/-- The response-parsing section of `judge_response` (`evaluate.py`
lines 93-102) applied to the judge service's raw text.  The `try` block
catches exactly `json.JSONDecodeError` (modelled by `jsonLoads = none`),
`KeyError` (object without a `score` member) and `ValueError`
(`int(...)` on a non-numeric string); in those cases the fallback scan
runs.  A `TypeError` — subscripting a non-object document, or `int` of
`None` — is not caught and is modelled as `Except.error`.  The fragment
assumes the `reasoning` member, when present, is a string. -/
def judgeParseText (text : String) : Except String (Int × String) :=
  match jsonLoads text with
  | none => Except.ok (judgeFallback text)
  | some (JVal.scalar _) => Except.error "TypeError: not subscriptable"
  | some (JVal.jobj fields) =>
    match pyDictGet fields "score" with
    | none => Except.ok (judgeFallback text)
    | some v =>
      match pyIntOf v with
      | PyIntRes.ok n =>
        Except.ok (n,
          match pyDictGet fields "reasoning" with
          | some (JScalar.jstr s) => s
          | some _ => ""
          | none => "")
      | PyIntRes.valErr => Except.ok (judgeFallback text)
      | PyIntRes.typeErr => Except.error "TypeError: int of None"

/-- `judge_response` (`evaluate.py` lines 62-102).  The Gemini call
`client.models.generate_content` is the parameter `generate`, taking
the three prompt inputs and returning the response text (or raising,
modelled by `Except.error`, which propagates uncaught). -/
def judge_response (generate : String → String → String → Except String String)
    (question baseline response : String) : Except String (Int × String) :=
  match generate question baseline response with
  | Except.error e => Except.error e
  | Except.ok text => judgeParseText text

/-- A row of the reference CSV as produced by `csv.DictReader`: the
`Question` and `Baseline answer` fields (both present in the dataset
schema; rows with missing columns are outside the fragment). -/
structure CsvRow where
  question : String
  baseline : String
deriving DecidableEq

/-- A loaded question entry (`evaluate.py` line 48). -/
structure QuestionRec where
  id : Nat
  question : String
  baseline : String
deriving DecidableEq

/-- The row loop of `load_questions` (`evaluate.py` lines 44-48):
`enumerate(reader, start=1)` supplies `i`; a row is kept only when its
stripped question is non-empty, and the kept entry records `i`, the
stripped question and the stripped baseline. -/
def loadQuestionsGo (i : Nat) : List CsvRow → List QuestionRec
  | [] => []
  | r :: rs =>
    if pyStrip r.question ≠ "" then
      { id := i, question := pyStrip r.question,
        baseline := pyStrip r.baseline } :: loadQuestionsGo (i + 1) rs
    else loadQuestionsGo (i + 1) rs

/-- `load_questions` (`evaluate.py` lines 40-49) on the parsed rows of
the CSV file. -/
def load_questions (rows : List CsvRow) : List QuestionRec :=
  loadQuestionsGo 1 rows

/-- Specification-shaped reading of `load_questions`: tag every raw row
(kept or not) with its 1-based position, then keep exactly the rows
whose stripped question is non-empty, each carrying its position as id.
Used only to characterise `load_questions`. -/
def loadQuestionsSpec (rows : List CsvRow) : List QuestionRec :=
  (List.enumFrom 1 rows).filterMap (fun p =>
    if pyStrip p.2.question ≠ "" then
      some { id := p.1, question := pyStrip p.2.question,
             baseline := pyStrip p.2.baseline }
    else none)

/-- `SCORE_LABELS.get(score, "unknown")` (`evaluate.py` lines 31-37 and
136). -/
def scoreLabel (s : Int) : String :=
  if s = 1 then "no_answer"
  else if s = 2 then "wrong"
  else if s = 3 then "partial"
  else if s = 4 then "acceptable"
  else if s = 5 then "correct"
  else "unknown"

/-- Split a character list at `\n` separators (the ASCII fragment of
the line boundaries recognised by Python `str.splitlines`). -/
def splitNLGo (cur : List Char) : List Char → List String
  | [] => [String.mk cur.reverse]
  | c :: cs =>
    if c = '\n' then String.mk cur.reverse :: splitNLGo [] cs
    else splitNLGo (c :: cur) cs

/-- Python `str.splitlines` on the `\n` fragment: split on newlines
without producing a trailing empty line. -/
def pySplitlines (s : String) : List String :=
  if s = "" then []
  else
    let parts := splitNLGo [] s.data
    if parts.getLastD "" = "" then parts.dropLast else parts

/-- One EvaluationRecord of the run (`evaluate.py` lines 140-152). -/
structure EvalRecord where
  id : Nat
  question : String
  baseline : String
  cypher : String
  response : String
  score : Int
  label : String
  reasoning : String
  error : Option String
deriving DecidableEq

/-- The body of the question loop of `run_evaluation` (`evaluate.py`
lines 114-152) for one question.  `pipeline` models `graph_rag.run`
(an `Except.error` models a raised exception, whose traceback text is
the error value); `judge` models `judge_response`.  The `try` block
wraps only the pipeline call: a pipeline error is downgraded to a
score-1 record carrying the last traceback line, while an error raised
by the judge call propagates (`Except.error`). -/
def processQuestion (pipeline : String → Except String RagRunResult)
    (judge : String → String → String → Except String (Int × String))
    (q : QuestionRec) : Except String EvalRecord :=
  match pipeline q.question with
  | Except.error err =>
    Except.ok
      { id := q.id, question := q.question, baseline := q.baseline,
        cypher := "", response := "", score := 1, label := scoreLabel 1,
        reasoning := "Exception: " ++ (pySplitlines err).getLastD "",
        error := some err }
  | Except.ok rag =>
    if rag.response = "" ∨ rag.response = "N/A" then
      Except.ok
        { id := q.id, question := q.question, baseline := q.baseline,
          cypher := rag.cypher, response := rag.response, score := 1,
          label := scoreLabel 1, reasoning := "No response returned",
          error := none }
    else
      match judge q.question q.baseline rag.response with
      | Except.error e => Except.error e
      | Except.ok (score, reasoning) =>
        Except.ok
          { id := q.id, question := q.question, baseline := q.baseline,
            cypher := rag.cypher, response := rag.response, score := score,
            label := scoreLabel score, reasoning := reasoning, error := none }

/-- The question loop of `run_evaluation` (`evaluate.py` lines
114-152): questions are processed in order; an uncaught error anywhere
in a question's processing aborts the whole run (`Except.error`),
otherwise the records accumulate in input order. -/
def runEvalLoop (pipeline : String → Except String RagRunResult)
    (judge : String → String → String → Except String (Int × String)) :
    List QuestionRec → Except String (List EvalRecord)
  | [] => Except.ok []
  | q :: qs =>
    match processQuestion pipeline judge q with
    | Except.error e => Except.error e
    | Except.ok r =>
      match runEvalLoop pipeline judge qs with
      | Except.error e => Except.error e
      | Except.ok rs => Except.ok (r :: rs)

/-- `run_evaluation` (`evaluate.py` lines 105-176) up to its returned
record list: load the questions and run the loop.  Summary statistics
are computed by `labelCounts` below. -/
def run_evaluation (pipeline : String → Except String RagRunResult)
    (judge : String → String → String → Except String (Int × String))
    (rows : List CsvRow) : Except String (List EvalRecord) :=
  runEvalLoop pipeline judge (load_questions rows)

/-- The label-count table initialisation (`evaluate.py` line 157):
`\x7blabel: 0 for label in SCORE_LABELS.values()\x7d`, an insertion-ordered
dict with all five enum labels at 0. -/
def labelCountsInit : List (String × Nat) :=
  [("no_answer", 0), ("wrong", 0), ("partial", 0), ("acceptable", 0),
   ("correct", 0)]

/-- One dict update `counts[label] = counts.get(label, 0) + 1`
(`evaluate.py` line 159): increment in place when the key exists,
append otherwise (Python dicts preserve insertion order). -/
def bumpLabel : List (String × Nat) → String → List (String × Nat)
  | [], l => [(l, 1)]
  | (k, n) :: rest, l =>
    if k = l then (k, n + 1) :: rest else (k, n) :: bumpLabel rest l

/-- The per-label count table of the run summary (`evaluate.py` lines
157-159). -/
def labelCounts (records : List EvalRecord) : List (String × Nat) :=
  records.foldl (fun acc r => bumpLabel acc r.label) labelCountsInit

/-- One entry of `conn._get_rel_table_names()`: a relationship table
descriptor with its name, source node label and destination node
label. -/
structure RelInfo where
  name : String
  src : String
  dst : String
deriving DecidableEq

/-- One property of a node or relationship table as built in
`get_schema_dict` from a `TABLE_INFO` row: name (`row[1]`) and declared
type (`row[2]`). -/
structure SchemaProp where
  name : String
  type : String
deriving DecidableEq

/-- Sort key for properties: the Python key `(prop["name"],
prop["type"])` under lexicographic tuple order. -/
def propKey (p : SchemaProp) : Lex (String × String) := toLex (p.name, p.type)

/-- Python tuple comparison on property sort keys. -/
def propLE (p q : SchemaProp) : Prop := propKey p ≤ propKey q

instance : DecidableRel propLE := fun p q =>
  inferInstanceAs (Decidable (propKey p ≤ propKey q))

instance : IsTrans SchemaProp propLE :=
  ⟨fun _ _ _ h₁ h₂ => le_trans h₁ h₂⟩

instance : IsTotal SchemaProp propLE :=
  ⟨fun p q => le_total (propKey p) (propKey q)⟩

instance : IsAntisymm SchemaProp propLE := by
  refine ⟨fun p q h₁ h₂ => ?_⟩
  have h := le_antisymm h₁ h₂
  cases p
  cases q
  simpa [propKey, toLex_inj, Prod.ext_iff, SchemaProp.mk.injEq] using h

/-- Sort key for relationship descriptors: the Python key
`(rel["src"], rel["name"], rel["dst"])` under lexicographic tuple
order. -/
def relKey (r : RelInfo) : Lex (String × Lex (String × String)) :=
  toLex (r.src, toLex (r.name, r.dst))

/-- Python tuple comparison on relationship sort keys. -/
def relLE (r s : RelInfo) : Prop := relKey r ≤ relKey s

instance : DecidableRel relLE := fun r s =>
  inferInstanceAs (Decidable (relKey r ≤ relKey s))

instance : IsTrans RelInfo relLE :=
  ⟨fun _ _ _ h₁ h₂ => le_trans h₁ h₂⟩

instance : IsTotal RelInfo relLE :=
  ⟨fun r s => le_total (relKey r) (relKey s)⟩

instance : IsAntisymm RelInfo relLE := by
  refine ⟨fun r s h₁ h₂ => ?_⟩
  have h := le_antisymm h₁ h₂
  cases r
  cases s
  have h2 := by simpa [relKey, toLex_inj, Prod.ext_iff] using h
  simp [RelInfo.mk.injEq]
  exact ⟨h2.2.1, h2.1, h2.2.2⟩

/-- Python `sorted` on node table names (`rag.py` line 18).  Because a
sort key determines the element it keys (strings key themselves, and
the keys of `propLE`/`relLE` consist of every field of the element),
any stable sorted permutation is unique, so `List.insertionSort` models
Python `sorted` exactly. -/
def sortStrings (l : List String) : List String :=
  List.insertionSort (fun a b => a ≤ b) l

/-- Python `sorted(..., key=lambda rel: (rel["src"], rel["name"],
rel["dst"]))` (`rag.py` line 19). -/
def sortRels (l : List RelInfo) : List RelInfo := List.insertionSort relLE l

/-- Python `.sort(key=lambda prop: (prop["name"], prop["type"]))`
(`rag.py` lines 29 and 43). -/
def sortProps (l : List SchemaProp) : List SchemaProp :=
  List.insertionSort propLE l

/-- The node schema entries of `get_schema_dict` (`rag.py` lines
23-30). -/
structure NodeSchema where
  label : String
  properties : List SchemaProp
deriving DecidableEq

/-- The edge schema entries of `get_schema_dict` (`rag.py` lines
32-44). -/
structure EdgeSchema where
  label : String
  src : String
  dst : String
  properties : List SchemaProp
deriving DecidableEq

/-- The dictionary returned by `get_schema_dict` (`rag.py` line 21). -/
structure SchemaDict where
  nodes : List NodeSchema
  edges : List EdgeSchema
deriving DecidableEq

/-- The property list built for one table: map each `TABLE_INFO` row
`(ordinal, name, type)` to a property and sort by (name, type)
(`rag.py` lines 25-29 and 39-43).  `tableInfo` models the backend's
`CALL TABLE_INFO(...)` cursor for each table name. -/
def tableProps (tableInfo : String → List (Nat × String × String))
    (t : String) : List SchemaProp :=
  sortProps ((tableInfo t).map (fun row =>
    { name := row.2.1, type := row.2.2 }))

/-- `get_schema_dict` (`rag.py` lines 16-46).  The backend connection is
modelled by its three introspection answers: the node table names, the
relationship descriptors, and the per-table `TABLE_INFO` rows. -/
def get_schema_dict (nodeNames : List String) (relTables : List RelInfo)
    (tableInfo : String → List (Nat × String × String)) : SchemaDict :=
  { nodes := (sortStrings nodeNames).map (fun n =>
      { label := n, properties := tableProps tableInfo n }),
    edges := (sortRels relTables).map (fun r =>
      { label := r.name, src := r.src, dst := r.dst,
        properties := tableProps tableInfo r.name }) }

/-- One direction line of the grounding text (`rag.py` line 56). -/
def renderEdgeDirection (e : EdgeSchema) : String :=
  "(:" ++ e.src ++ ") -[:" ++ e.label ++ "]-> (:" ++ e.dst ++ ")"

/-- Python `str.lower()` on the ASCII fragment. -/
def pyLower (s : String) : String := String.mk (s.data.map Char.toLower)

/-- One property line of the grounding text (`rag.py` lines 64-65 and
72-74): the declared type is lower-cased. -/
def renderProp (p : SchemaProp) : String :=
  "    - " ++ p.name ++ ": " ++ pyLower p.type

/-- `get_schema_baml` (`rag.py` lines 49-75): the direction block, the
node-properties block, and the edge-properties block restricted to
edges with at least one property, joined with newlines. -/
def get_schema_baml (nodeNames : List String) (relTables : List RelInfo)
    (tableInfo : String → List (Nat × String × String)) : String :=
  let schema := get_schema_dict nodeNames relTables tableInfo
  String.intercalate "\n"
    (["ALWAYS RESPECT THE EDGE DIRECTIONS:\n---"]
      ++ schema.edges.map renderEdgeDirection
      ++ ["---", "\nNode properties:"]
      ++ schema.nodes.flatMap (fun n =>
           ("  - " ++ n.label) :: n.properties.map renderProp)
      ++ ["\nEdge properties:"]
      ++ (schema.edges.filter (fun e => !e.properties.isEmpty)).flatMap
           (fun e => ("- " ++ e.label) :: e.properties.map renderProp))

/-! Helper lemmas shared by the claim theorems. -/

theorem dedupGo_eq (l : List (List Val)) :
    ∀ seen, dedupGo seen l = keepFirsts (l.filter (fun y => decide (y ∉ seen))) := by
  induction l with
  | nil => intro seen; simp [dedupGo, keepFirsts]
  | cons x xs ih =>
    intro seen
    by_cases hx : x ∈ seen
    · simp [dedupGo, hx, ih seen]
    · have hfil : ∀ a ∈ xs,
          (decide (a ≠ x) && decide (a ∉ seen)) = decide (a ∉ x :: seen) := by
        intro a _
        by_cases hax : a = x <;> by_cases has : a ∈ seen <;>
          simp [hax, has, List.mem_cons]
      simp only [dedupGo, hx, if_neg, ih (x :: seen), List.filter_cons]
      simp [hx, keepFirsts, List.filter_filter, List.filter_congr hfil]

theorem dedupRows_eq_keepFirsts (l : List (List Val)) :
    dedupRows l = keepFirsts l := by
  have h := dedupGo_eq l []
  have hfil : ∀ a ∈ l, (decide (a ∉ ([] : List (List Val)))) = true := by
    intro a _; simp
  simpa [dedupRows, List.filter_congr hfil] using h

theorem mem_keepFirsts {a : List Val} : ∀ {l : List (List Val)},
    a ∈ keepFirsts l ↔ a ∈ l := by
  intro l
  induction l using keepFirsts.induct with
  | case1 => simp [keepFirsts]
  | case2 x xs ih =>
    rw [keepFirsts]
    by_cases hax : a = x
    · simp [hax]
    · simp only [List.mem_cons, hax, false_or]
      rw [ih]
      simp [List.mem_filter, hax]

theorem nodup_keepFirsts : ∀ (l : List (List Val)), (keepFirsts l).Nodup := by
  intro l
  induction l using keepFirsts.induct with
  | case1 => simp [keepFirsts]
  | case2 x xs ih =>
    rw [keepFirsts]
    refine List.nodup_cons.mpr ⟨?_, ih⟩
    rw [mem_keepFirsts]
    simp [List.mem_filter]

theorem insertionSort_eq_of_perm {α : Type} (r : α → α → Prop) [DecidableRel r]
    [IsTotal α r] [IsTrans α r] [IsAntisymm α r] {l₁ l₂ : List α}
    (h : l₁.Perm l₂) : List.insertionSort r l₁ = List.insertionSort r l₂ :=
  List.eq_of_perm_of_sorted
    ((List.perm_insertionSort r l₁).trans (h.trans
      (List.perm_insertionSort r l₂).symm))
    (List.sorted_insertionSort r l₁) (List.sorted_insertionSort r l₂)

theorem loadQuestionsGo_eq (rows : List CsvRow) : ∀ i,
    loadQuestionsGo i rows = (List.enumFrom i rows).filterMap (fun p =>
      if pyStrip p.2.question ≠ "" then
        some { id := p.1, question := pyStrip p.2.question,
               baseline := pyStrip p.2.baseline }
      else none) := by
  induction rows with
  | nil => intro i; simp [loadQuestionsGo, List.enumFrom]
  | cons r rs ih =>
    intro i
    by_cases hq : pyStrip r.question ≠ "" <;>
      simp [loadQuestionsGo, List.enumFrom, List.filterMap_cons, hq, ih (i + 1)]

/-! Theorems for the claims. -/

/-- C3: `execute_query` serializes the deduplicated result as follows:
zero rows yield the empty string; exactly one column yields the row
values joined with `", "`; more than one column yields, per row, the
`col: value` pairs with null-valued pairs omitted, pairs joined with
`" | "` and rows joined with newline.  In particular the single-column
rows (1,), (2,), (3,) serialize to "1, 2, 3", and the two-column rows
("Alice", 30), ("Bob", None) with columns name, age serialize to
"name: Alice | age: 30" then "name: Bob". -/
theorem execute_query_serialization :
    (∀ q cols raw,
      execute_query q cols raw =
        { question := q, answer := serializeRows cols (dedupRows raw) })
    ∧ (∀ cols, serializeRows cols [] = "")
    ∧ (∀ c rows, serializeRows [c] rows =
        if rows = [] then ""
        else String.intercalate ", "
          (rows.map (fun r => pyStr (r.headD Val.vnone))))
    ∧ (∀ c₁ c₂ cs rows, serializeRows (c₁ :: c₂ :: cs) rows =
        if rows = [] then ""
        else String.intercalate "\n" (rows.map (fun row =>
          String.intercalate " | "
            ((((c₁ :: c₂ :: cs).zip row).filter
                (fun p => decide (p.2 ≠ Val.vnone))).map
              (fun p => p.1 ++ ": " ++ pyStr p.2)))))
    ∧ execute_query "q" ["x"] [[Val.vint 1], [Val.vint 2], [Val.vint 3]] =
        { question := "q", answer := "1, 2, 3" }
    ∧ execute_query "q" ["name", "age"]
        [[Val.vstr "Alice", Val.vint 30], [Val.vstr "Bob", Val.vnone]] =
        { question := "q", answer := "name: Alice | age: 30\nname: Bob" } := by
  refine ⟨fun q cols raw => rfl, fun cols => by simp [serializeRows],
    fun c rows => ?_, fun c₁ c₂ cs rows => ?_, by decide, by decide⟩
  · by_cases h : rows = [] <;> simp [serializeRows, h]
  · by_cases h : rows = [] <;> simp [serializeRows, h]

/-- C4: `execute_query` deduplicates rows by full-row value-equality,
keeping exactly the first occurrence of each distinct row tuple in the
backend-returned order of first occurrences: `dedupRows` equals the
keep-the-first-occurrence function `keepFirsts`, its output has no
duplicate rows and exactly the members of the raw result, and the raw
rows ("a",1), ("b",2), ("a",1) produce exactly ("a",1), ("b",2) in that
order. -/
theorem execute_query_dedup :
    (∀ raw, dedupRows raw = keepFirsts raw)
    ∧ (∀ raw, (dedupRows raw).Nodup)
    ∧ (∀ raw x, x ∈ dedupRows raw ↔ x ∈ raw)
    ∧ (∀ q cols raw, execute_query q cols raw =
        { question := q, answer := serializeRows cols (keepFirsts raw) })
    ∧ dedupRows [[Val.vstr "a", Val.vint 1], [Val.vstr "b", Val.vint 2],
        [Val.vstr "a", Val.vint 1]] =
        [[Val.vstr "a", Val.vint 1], [Val.vstr "b", Val.vint 2]] := by
  refine ⟨dedupRows_eq_keepFirsts, fun raw => ?_, fun raw x => ?_,
    fun q cols raw => ?_, by decide⟩
  · rw [dedupRows_eq_keepFirsts]; exact nodup_keepFirsts raw
  · rw [dedupRows_eq_keepFirsts]; exact mem_keepFirsts
  · unfold execute_query
    rw [dedupRows_eq_keepFirsts]

/-- C9: in the single-column case of `execute_query`, null values are
not dropped: every row contributes one element rendered by `str`, so a
`None` value appears as the element "None" of the comma-joined output —
unlike the multi-column case, where null-valued pairs are omitted.  In
particular single-column rows (1,), (None,), (2,) serialize to
"1, None, 2", while the two-column row (None, 2) with columns a, b
serializes to "b: 2". -/
theorem single_column_none_kept :
    pyStr Val.vnone = "None"
    ∧ (∀ c rows, serializeRows [c] rows =
        if rows = [] then ""
        else String.intercalate ", "
          (rows.map (fun r => pyStr (r.headD Val.vnone))))
    ∧ execute_query "q" ["x"] [[Val.vint 1], [Val.vnone], [Val.vint 2]] =
        { question := "q", answer := "1, None, 2" }
    ∧ execute_query "q" ["a", "b"] [[Val.vnone, Val.vint 2]] =
        { question := "q", answer := "b: 2" } := by
  refine ⟨rfl, fun c rows => ?_, by decide, by decide⟩
  by_cases h : rows = [] <;> simp [serializeRows, h]

/-- C10: `load_questions` assigns each question's id from its 1-based
position among all rows of the raw dataset, counting rows whose
stripped question is empty even though they are excluded from the
returned list: `load_questions` equals the position-tagging
characterisation `loadQuestionsSpec`, and a dataset whose second row is
empty yields ids 1 and 3. -/
theorem load_questions_ids :
    (∀ rows, load_questions rows = loadQuestionsSpec rows)
    ∧ load_questions [{ question := "Q1", baseline := "A1" },
        { question := "  ", baseline := "skipped" },
        { question := "Q3", baseline := "A3" }] =
      [{ id := 1, question := "Q1", baseline := "A1" },
       { id := 3, question := "Q3", baseline := "A3" }] := by
  exact ⟨fun rows => loadQuestionsGo_eq rows 1, by decide⟩

/-- C7: when the query-generation service returns no query,
`GraphRAG.run` returns an outcome whose query and answer fields both
equal the sentinel "N/A", for every backend and synthesis service —
so neither a query execution nor an answer-synthesis call can influence
or occur in this path. -/
theorem run_no_query_sentinel (text2cypher : String → Except String (Option String))
    (backend : String → Except String (List String × List (List Val)))
    (synthesize : String → String → Except String String) (question : String)
    (h : text2cypher question = Except.ok none) :
    GraphRAG.run text2cypher backend synthesize question =
      Except.ok { question := question, cypher := "N/A", response := "N/A" }
    ∧ ∀ backend2 synthesize2,
      GraphRAG.run text2cypher backend synthesize question =
        GraphRAG.run text2cypher backend2 synthesize2 question := by
  constructor
  · unfold GraphRAG.run
    rw [h]
  · intro backend2 synthesize2
    unfold GraphRAG.run
    rw [h]

/-- Witness for C7 at a concrete input: the generation service returns
no query while the backend and synthesis services would fail if called;
the sentinel outcome is still produced. -/
theorem run_no_query_sentinel_witness :
    GraphRAG.run (fun _ => Except.ok none)
      (fun _ => Except.error "backend was called")
      (fun _ _ => Except.error "synthesis was called") "who spoke?" =
      Except.ok { question := "who spoke?", cypher := "N/A",
                  response := "N/A" } :=
  (run_no_query_sentinel (fun _ => Except.ok none)
    (fun _ => Except.error "backend was called")
    (fun _ _ => Except.error "synthesis was called") "who spoke?" rfl).1

/-- C8: when the pipeline returns normally with a response that is
empty or equals the sentinel "N/A", the evaluation loop records score
1, label "no_answer", reasoning "No response returned" for that
question and continues, and the judge is not invoked: the outcome is
the same for every judge function. -/
theorem no_response_skips_judge
    (pipeline : String → Except String RagRunResult)
    (judge : String → String → String → Except String (Int × String))
    (q : QuestionRec) (qs : List QuestionRec) (rag : RagRunResult)
    (hp : pipeline q.question = Except.ok rag)
    (hr : rag.response = "" ∨ rag.response = "N/A") :
    runEvalLoop pipeline judge (q :: qs) =
      (runEvalLoop pipeline judge qs).map (fun rs =>
        { id := q.id, question := q.question, baseline := q.baseline,
          cypher := rag.cypher, response := rag.response, score := 1,
          label := "no_answer", reasoning := "No response returned",
          error := none } :: rs)
    ∧ ∀ judge2, processQuestion pipeline judge q =
        processQuestion pipeline judge2 q := by
  have hpq : processQuestion pipeline judge q =
      Except.ok
        { id := q.id, question := q.question, baseline := q.baseline,
          cypher := rag.cypher, response := rag.response, score := 1,
          label := "no_answer", reasoning := "No response returned",
          error := none } := by
    unfold processQuestion
    rw [hp]
    simp [hr, scoreLabel]
  constructor
  · rw [runEvalLoop, hpq]
    cases runEvalLoop pipeline judge qs <;> simp [Except.map]
  · intro judge2
    rw [hpq]
    unfold processQuestion
    rw [hp]
    simp [hr, scoreLabel]

/-- Witness for C8 at a concrete input: the pipeline returns the
sentinel response and the judge would fail if called; the no-answer
record is still produced and the loop completes. -/
theorem no_response_skips_judge_witness :
    runEvalLoop
      (fun _ => Except.ok
        { question := "q1", cypher := "MATCH x", response := "N/A" })
      (fun _ _ _ => Except.error "judge was called")
      [{ id := 1, question := "q1", baseline := "b1" }] =
      Except.ok
        [{ id := 1, question := "q1", baseline := "b1",
           cypher := "MATCH x", response := "N/A", score := 1,
           label := "no_answer", reasoning := "No response returned",
           error := none }] := by
  have h := (no_response_skips_judge
    (fun _ => Except.ok
      { question := "q1", cypher := "MATCH x", response := "N/A" })
    (fun _ _ _ => Except.error "judge was called")
    { id := 1, question := "q1", baseline := "b1" } []
    { question := "q1", cypher := "MATCH x", response := "N/A" }
    rfl (Or.inr rfl)).1
  simpa [runEvalLoop, Except.map] using h

/-- C1 counterexample: an error raised by the judge call while
processing a question is not downgraded to a score-1 record — it
terminates the evaluation run.  The single question's pipeline returns
a normal response, the judge raises, and the loop result is the raised
error with no record produced. -/
theorem judge_error_terminates_run :
    run_evaluation
      (fun _ => Except.ok
        { question := "q1", cypher := "MATCH x", response := "hello" })
      (fun _ _ _ => Except.error "judge connection failure")
      [{ question := "q1", baseline := "b1" }] =
      Except.error "judge connection failure" := rfl

/-- C1 (amended): errors raised by the pipeline invocation
(`graph_rag.run`) are downgraded to a score-1 record whose reasoning
embeds the last line of the traceback, and the loop continues with the
remaining questions; errors raised by the judge call are outside the
`try` block and propagate. -/
theorem pipeline_error_downgraded
    (pipeline : String → Except String RagRunResult)
    (judge : String → String → String → Except String (Int × String))
    (q : QuestionRec) (qs : List QuestionRec) (e : String)
    (h : pipeline q.question = Except.error e) :
    runEvalLoop pipeline judge (q :: qs) =
      (runEvalLoop pipeline judge qs).map (fun rs =>
        { id := q.id, question := q.question, baseline := q.baseline,
          cypher := "", response := "", score := 1, label := "no_answer",
          reasoning := "Exception: " ++ (pySplitlines e).getLastD "",
          error := some e } :: rs) := by
  have hpq : processQuestion pipeline judge q =
      Except.ok
        { id := q.id, question := q.question, baseline := q.baseline,
          cypher := "", response := "", score := 1, label := "no_answer",
          reasoning := "Exception: " ++ (pySplitlines e).getLastD "",
          error := some e } := by
    unfold processQuestion
    rw [h]
    simp [scoreLabel]
  rw [runEvalLoop, hpq]
  cases runEvalLoop pipeline judge qs <;> simp [Except.map]

/-- Witness for the amended C1 at a concrete input: a pipeline that
raises on both questions yields two downgraded records carrying the
last traceback line, and the run completes normally. -/
theorem pipeline_error_downgraded_witness :
    runEvalLoop (fun _ => Except.error "Traceback:\nRuntimeError: boom")
      (fun _ _ _ => Except.error "judge was called")
      [{ id := 1, question := "q1", baseline := "b1" },
       { id := 2, question := "q2", baseline := "b2" }] =
      Except.ok
        [{ id := 1, question := "q1", baseline := "b1", cypher := "",
           response := "", score := 1, label := "no_answer",
           reasoning := "Exception: RuntimeError: boom",
           error := some "Traceback:\nRuntimeError: boom" },
         { id := 2, question := "q2", baseline := "b2", cypher := "",
           response := "", score := 1, label := "no_answer",
           reasoning := "Exception: RuntimeError: boom",
           error := some "Traceback:\nRuntimeError: boom" }] := by
  have h1 := pipeline_error_downgraded
    (fun _ => Except.error "Traceback:\nRuntimeError: boom")
    (fun _ _ _ => Except.error "judge was called")
    { id := 1, question := "q1", baseline := "b1" }
    [{ id := 2, question := "q2", baseline := "b2" }]
    "Traceback:\nRuntimeError: boom" rfl
  have h2 := pipeline_error_downgraded
    (fun _ => Except.error "Traceback:\nRuntimeError: boom")
    (fun _ _ _ => Except.error "judge was called")
    { id := 2, question := "q2", baseline := "b2" } []
    "Traceback:\nRuntimeError: boom" rfl
  rw [h1, h2]
  rfl

/-- The judge service response text used for the C2 failing input: the
valid JSON object with score 7 and reasoning "fine". -/
def overScoreText : String :=
  "\x7b\x22score\x22: 7, \x22reasoning\x22: \x22fine\x22\x7d"

/-- C2 failing input: when the judge service answers with the valid
JSON object score 7, the evaluation loop stores score 7 — outside
[1,5] — with label "unknown", which is outside the five-label enum, and
the label-count table gains an extra "unknown" key; the record
contradicts both the claimed score range and the claimed label
mapping. -/
theorem judge_score_out_of_range :
    run_evaluation
      (fun _ => Except.ok
        { question := "q1", cypher := "MATCH x", response := "hello" })
      (judge_response (fun _ _ _ => Except.ok overScoreText))
      [{ question := "q1", baseline := "b1" }] =
      Except.ok
        [{ id := 1, question := "q1", baseline := "b1",
           cypher := "MATCH x", response := "hello", score := 7,
           label := "unknown", reasoning := "fine", error := none }]
    ∧ labelCounts
        [{ id := 1, question := "q1", baseline := "b1",
           cypher := "MATCH x", response := "hello", score := 7,
           label := "unknown", reasoning := "fine", error := none }] =
        [("no_answer", 0), ("wrong", 0), ("partial", 0),
         ("acceptable", 0), ("correct", 0), ("unknown", 1)] :=
  ⟨rfl, rfl⟩

/-- C5 failing input: the judge response text "5" is valid JSON but not
an object, so `parsed["score"]` raises an uncaught `TypeError` and
`judge_response` propagates it instead of falling back — the function
can raise on a malformed judge response.  The other three tiers behave
as claimed: a structured object is used directly, a parse failure falls
back to the first digit in [1,5] with the raw text as reasoning, and
with no such digit score 1 is returned with a reasoning embedding the
raw text. -/
theorem judge_response_typeerror :
    judgeParseText "5" = Except.error "TypeError: not subscriptable"
    ∧ judge_response (fun _ _ _ => Except.ok "5") "q" "b" "a" =
        Except.error "TypeError: not subscriptable"
    ∧ judgeParseText "\x7b\x22score\x22: 4, \x22reasoning\x22: \x22good\x22\x7d" =
        Except.ok (4, "good")
    ∧ judgeParseText "Score: 4 because it matches" =
        Except.ok (4, "Score: 4 because it matches")
    ∧ judgeParseText "no score present" =
        Except.ok (1, "Could not parse judge response: no score present") :=
  ⟨rfl, rfl, rfl, rfl, rfl⟩

/-- C6: grounding-text generation is deterministic.  For a fixed
backend schema — the node-table names, relationship descriptors and
per-table `TABLE_INFO` rows each given in an arbitrary enumeration
order — `get_schema_baml` produces the same string, because node
labels, edge descriptors and property lists are sorted into a fixed
order before rendering. -/
theorem get_schema_baml_deterministic
    (n₁ n₂ : List String) (r₁ r₂ : List RelInfo)
    (t₁ t₂ : String → List (Nat × String × String))
    (hn : n₁.Perm n₂) (hr : r₁.Perm r₂) (ht : ∀ s, (t₁ s).Perm (t₂ s)) :
    get_schema_baml n₁ r₁ t₁ = get_schema_baml n₂ r₂ t₂ := by
  have hprops : tableProps t₁ = tableProps t₂ := by
    funext s
    exact insertionSort_eq_of_perm propLE ((ht s).map _)
  have hnodes : sortStrings n₁ = sortStrings n₂ :=
    insertionSort_eq_of_perm (fun a b => a ≤ b) hn
  have hrels : sortRels r₁ = sortRels r₂ := insertionSort_eq_of_perm relLE hr
  have hdict : get_schema_dict n₁ r₁ t₁ = get_schema_dict n₂ r₂ t₂ := by
    unfold get_schema_dict sortStrings sortRels
    unfold sortStrings at hnodes
    unfold sortRels at hrels
    rw [hprops, hnodes, hrels]
  unfold get_schema_baml
  rw [hdict]

/-- Witness for C6 at a concrete input: the same two node tables, one
relationship table and two properties, enumerated in different orders,
yield the same grounding text. -/
theorem get_schema_baml_deterministic_witness :
    get_schema_baml ["Talk", "Speaker"]
      [{ name := "GAVE", src := "Speaker", dst := "Talk" }]
      (fun _ => [(0, "name", "STRING"), (1, "year", "INT64")]) =
    get_schema_baml ["Speaker", "Talk"]
      [{ name := "GAVE", src := "Speaker", dst := "Talk" }]
      (fun _ => [(1, "year", "INT64"), (0, "name", "STRING")]) :=
  get_schema_baml_deterministic _ _ _ _ _ _
    (List.Perm.swap _ _ _) (List.Perm.refl _)
    (fun _ => List.Perm.swap _ _ _)
